import Mathlib

/-!
Shallow embedding of `check-session.service.ts` from
`projects/angular-auth-oidc-client/src/lib/iframe/` — the OpenID Connect
check-session monitor.

Modelling conventions:
- The collaborators (`ConfigurationProvider`, `StoragePersistenceService`)
  are a read-only environment `Env`.
- The service instance fields and the externally observable effects
  (log calls, fired events, `BehaviorSubject` emissions, `postMessage`
  calls, registered window listeners, scheduled timeouts) are the state
  `CSState`.
- The event-driven parts (rxjs observables, `setTimeout`, iframe `onload`,
  window `message` events) are modelled by explicitly recording pending
  work in the state: `activeTimers` holds scheduled `setTimeout` closures
  (fired by `fireTimer`), `pendingOnload` holds the iframe onload observer
  registered by `init` (fired by `fireOnload`).  `Date.now()` is a `now`
  parameter.  Interpolated parts of log messages are elided; the fixed
  text of each message is kept.
- JavaScript truthiness of strings (empty string is falsy) is
  `strTruthy`; timer handles are `Option Nat` (`none` = `null`).
- `JsVal` captures that, at line 172 of the source, the config id is
  bound as the *first* argument of `messageHandler(e, configId)`, so the
  string lands in the `e` parameter and the browser event in `configId`.
  Property access on a string (`.origin`, `.source`, `.data`) yields
  `undefined`; `String.prototype.startsWith(undefined)` coerces the
  argument to the text "undefined".
-/

namespace CheckSession

/-- The persisted well-known endpoints object; only its
`checkSessionIframe` URL is read by this service. -/
structure WellKnown where
  checkSessionIframe : Option String
deriving DecidableEq

/-- The slice of the per-config OpenID configuration this service reads. -/
structure OpenIdConfiguration where
  startCheckSession : Bool
  clientId : String
deriving DecidableEq

/-- Read-only collaborators: `ConfigurationProvider.getOpenIDConfiguration`
and `StoragePersistenceService.read` for the two keys the service uses. -/
structure Env where
  config : String → OpenIdConfiguration
  sessionState : String → Option String
  wellKnown : String → Option WellKnown

/-- A live iframe element; `id` doubles as the identity of its
`contentWindow` reference. -/
structure Iframe where
  id : Nat
deriving DecidableEq

/-- A scheduled `setTimeout` for `pollServerSessionRecur`, with the
closure's captured `clientId`/`configId` parameters and the delay. -/
structure TimerTask where
  id : Nat
  clientId : String
  configId : String
  delay : Nat
deriving DecidableEq

/-- The iframe `onload` observer registered by `init`, together with the
captured `clientId`/`configId` of the tick waiting on it. -/
structure OnloadTask where
  clientId : String
  configId : String
deriving DecidableEq

/-- A JavaScript value as it reaches the message-handler parameters:
either a config-id string or a browser `MessageEvent`
(origin, source window reference, string payload). -/
inductive JsVal where
  | str (s : String)
  | msg (origin : String) (source : Option Nat) (data : String)
deriving DecidableEq

/-- Accessor `e.origin`: a real event yields its origin; on a string the property
is `undefined`, which `startsWith` coerces to the text "undefined". -/
def JsVal.originStr : JsVal → String
  | .msg o _ _ => o
  | .str _ => "undefined"

/-- Accessor `e.source`: `undefined` on a string value. -/
def JsVal.sourceRef : JsVal → Option Nat
  | .msg _ s _ => s
  | .str _ => none

/-- Accessor `e.data`: `undefined` on a string value. -/
def JsVal.dataStr : JsVal → Option String
  | .msg _ _ d => some d
  | .str _ => none

/-- Models `storagePersistenceService.read('authWellKnownEndPoints', configId)`
where the config-id argument may be any JavaScript value: a non-string
key finds nothing. -/
def Env.readWellKnown (env : Env) : JsVal → Option WellKnown
  | .str c => env.wellKnown c
  | _ => none

/-- Character-list equality-as-prefix: `listPrefixEq pre cs` is true when
`pre` is an initial segment of `cs` (structural, so it evaluates inside
the kernel). -/
def listPrefixEq : List Char → List Char → Bool
  | [], _ => true
  | _ :: _, [] => false
  | a :: as, b :: bs => a == b && listPrefixEq as bs

/-- JavaScript `s.startsWith(pre)`. -/
def strStartsWith (s pre : String) : Bool :=
  listPrefixEq pre.toList s.toList

/-- JavaScript emptiness test on a string (`!clientId`-style falsiness). -/
def strIsEmpty (s : String) : Bool :=
  s.toList.isEmpty

/-- JavaScript truthiness of a possibly-absent string. -/
def strTruthy : Option String → Bool
  | some s => !strIsEmpty s
  | none => false

/-- Source field `this.heartBeatInterval = 3000`. -/
def heartBeatInterval : Nat := 3000

/-- Source field `this.iframeRefreshInterval = 60000`. -/
def iframeRefreshInterval : Nat := 60000

/-- Characters of a URL up to (excluding) the first `/`. -/
def hostChars : List Char → List Char
  | [] => []
  | '/' :: _ => []
  | c :: rest => c :: hostChars rest

/-- Splits a character list at the first occurrence of `://`, returning
the scheme part and the remainder. -/
def splitSchemeSep : List Char → Option (List Char × List Char)
  | [] => none
  | ':' :: '/' :: '/' :: rest => some ([], rest)
  | c :: rest =>
      match splitSchemeSep rest with
      | some (pre, post) => some (c :: pre, post)
      | none => none

/-- Models `new URL(u).origin` for the absolute URLs this service handles:
scheme, `://`, then the authority up to the first `/`. -/
def urlOrigin (u : String) : String :=
  match splitSchemeSep u.toList with
  | some (scheme, rest) =>
      String.mk (scheme ++ ':' :: '/' :: '/' :: hostChars rest)
  | none => u

/-- Instance fields of `CheckSessionService` plus the recorded effects and
pending event-loop work. -/
structure CSState where
  checkSessionReceived : Bool := false
  scheduledHeartBeatRunning : Option Nat := none
  lastIFrameRefresh : Nat := 0
  outstandingMessages : Nat := 0
  checkSessionChangedCurrent : Bool := false
  changedEmissions : List Bool := []
  firedEvents : List String := []
  warnLogs : List String := []
  debugLogs : List String := []
  errorLogs : List String := []
  postedMessages : List (String × String) := []
  iframe : Option Iframe := none
  iframeUrl : Option String := none
  listeners : List String := []
  pendingOnload : Option OnloadTask := none
  activeTimers : List TimerTask := []
  -- browser setTimeout handles are positive, so ids start at 1
  nextTimerId : Nat := 1
  nextIframeId : Nat := 0
deriving DecidableEq

/-- Models `this.checkSessionChangedInternal$.next(b)`. -/
def nextChanged (b : Bool) (st : CSState) : CSState :=
  { st with checkSessionChangedCurrent := b,
            changedEmissions := st.changedEmissions ++ [b] }

/-- Models `loggerService.logWarning` (interpolations elided). -/
def logWarning (m : String) (st : CSState) : CSState :=
  { st with warnLogs := st.warnLogs ++ [m] }

/-- Models `loggerService.logDebug` (interpolations elided). -/
def logDebug (m : String) (st : CSState) : CSState :=
  { st with debugLogs := st.debugLogs ++ [m] }

/-- Models `loggerService.logError` (interpolations elided). -/
def logError (m : String) (st : CSState) : CSState :=
  { st with errorLogs := st.errorLogs ++ [m] }

/-- Models `eventService.fireEvent(EventTypes.CheckSessionReceived, payload)`. -/
def fireEvent (payload : String) (st : CSState) : CSState :=
  { st with firedEvents := st.firedEvents ++ [payload] }

/-- Models `getExistingIframe()`: looks up the single check-session iframe. -/
def getExistingIframe (st : CSState) : Option Iframe :=
  st.iframe

/-- Models `bindMessageEventToIframe(configId)`: registers
`messageHandler.bind(this, configId)` as a window `message` listener.
Because the source declares `messageHandler(e, configId)`, the bound
string occupies the `e` parameter when the listener later runs. -/
def bindMessageEventToIframe (configId : String) (st : CSState) : CSState :=
  { st with listeners := st.listeners ++ [configId] }

/-- Models `getOrCreateIframe(configId)`: returns the existing iframe or creates
one and binds the message listener (exactly once per created iframe). -/
def getOrCreateIframe (configId : String) (st : CSState) : CSState × Iframe :=
  match st.iframe with
  | some f => (st, f)
  | none =>
      (bindMessageEventToIframe configId
        { st with iframe := some { id := st.nextIframeId },
                  nextIframeId := st.nextIframeId + 1 },
       { id := st.nextIframeId })

/-- How the observable returned by `init` behaves for its one subscriber:
`of(undefined)` emits synchronously, `of()` completes without emitting
(the subscribe callback never runs), or it emits when the iframe fires
`onload`. -/
inductive InitResult where
  | emitNow
  | empty
  | waitOnload
deriving DecidableEq

/-- Models `init(configId)`: refresh cool-down check, well-known lookup, iframe
creation and navigation, returning how the observable will emit. -/
def init (env : Env) (configId : String) (now : Nat) (st : CSState) :
    CSState × InitResult :=
  if st.lastIFrameRefresh + iframeRefreshInterval > now then
    (st, .emitNow)
  else
    match env.wellKnown configId with
    | none =>
        (logWarning "init check session: authWellKnownEndpoints is undefined. Returning." st,
         .empty)
    | some wk =>
        match wk.checkSessionIframe with
        | some url =>
            ({ (getOrCreateIframe configId st).1 with iframeUrl := some url }, .waitOnload)
        | none =>
            (logWarning "init check session: checkSessionIframe is not configured to run"
              (getOrCreateIframe configId st).1,
             .waitOnload)

/-- The `setTimeout(() => pollServerSessionRecur(), heartBeatInterval)`
at the end of every tick callback, recording the handle. -/
def scheduleHeartBeat (clientId configId : String) (st : CSState) : CSState :=
  { st with
      scheduledHeartBeatRunning := some st.nextTimerId,
      activeTimers := st.activeTimers ++
        [{ id := st.nextTimerId, clientId := clientId, configId := configId,
           delay := heartBeatInterval }],
      nextTimerId := st.nextTimerId + 1 }

/-- The probe send inside the tick (`this.outstandingMessages++` and
`existingIframe.contentWindow.postMessage(clientId + ' ' + sessionState,
iframeOrigin)`). -/
def tickSend (env : Env) (clientId configId : String) (st : CSState) : CSState :=
  { st with
      outstandingMessages := st.outstandingMessages + 1,
      postedMessages := st.postedMessages ++
        [(clientId ++ " " ++ (env.sessionState configId).getD "",
          urlOrigin (((env.wellKnown configId).bind WellKnown.checkSessionIframe).getD ""))] }

/-- The tick's gap branch: session state or check-session URL missing —
debug log, then `this.checkSessionChangedInternal$.next(true)`. -/
def tickGap (st : CSState) : CSState :=
  nextChanged true (logDebug "session_state or authWellKnownEndPoints missing" st)

/-- First statement block of the subscribe callback inside
`pollServerSessionRecur`: probe send or gap handling. -/
def tickProbe (env : Env) (clientId configId : String) (st : CSState) : CSState :=
  match getExistingIframe st with
  | some _frame =>
      if !strIsEmpty clientId then
        if strTruthy (env.sessionState configId) &&
           strTruthy ((env.wellKnown configId).bind WellKnown.checkSessionIframe) then
          tickSend env clientId configId (logDebug "clientId and existingIframe" st)
        else
          tickGap (logDebug "clientId and existingIframe" st)
      else
        logDebug "clientId and existingIframe"
          (logWarning "OidcSecurityCheckSession pollServerSession checkSession IFrame does not exist" st)
  | none =>
      logDebug "clientId and existingIframe"
        (logWarning "OidcSecurityCheckSession pollServerSession checkSession IFrame does not exist" st)

/-- Second statement block: the unreachable-server escalation check
(`if (this.outstandingMessages > 3) logError(...)`). -/
def tickEscalate (st : CSState) : CSState :=
  if st.outstandingMessages > 3 then
    logError "OidcSecurityCheckSession not receiving check session response messages. Server unreachable?" st
  else st

/-- The body of the subscribe callback inside `pollServerSessionRecur`,
in source order: probe send / gap handling, then the unreachable-server
escalation, then the reschedule. -/
def tickBody (env : Env) (clientId configId : String) (st : CSState) : CSState :=
  scheduleHeartBeat clientId configId (tickEscalate (tickProbe env clientId configId st))

/-- One invocation of `pollServerSessionRecur`: run `init`, subscribe with
`take(1)`; the callback runs now, never, or when `onload` fires. -/
def pollServerSessionRecur (env : Env) (clientId configId : String) (now : Nat)
    (st : CSState) : CSState :=
  match init env configId now st with
  | (st, .emitNow) => tickBody env clientId configId st
  | (st, .empty) => st
  | (st, .waitOnload) =>
      { st with pendingOnload := some { clientId := clientId, configId := configId } }

/-- Models `pollServerSession(clientId, configId)`: reset the counter, start the
recurring tick. -/
def pollServerSession (env : Env) (clientId configId : String) (now : Nat)
    (st : CSState) : CSState :=
  pollServerSessionRecur env clientId configId now
    { st with outstandingMessages := 0 }

/-- Models `start(configId)`: no-op while a heartbeat is scheduled; otherwise
reads the config and calls `pollServerSession(configId, clientId)` — the
source's argument order, which binds the config id to the `clientId`
parameter and the client id to the `configId` parameter. -/
def start (env : Env) (configId : String) (now : Nat) (st : CSState) : CSState :=
  if st.scheduledHeartBeatRunning.isSome then st
  else
    let clientId := (env.config configId).clientId
    pollServerSession env configId clientId now st

/-- Models `clearScheduledHeartBeat()`: `clearTimeout` on the recorded handle,
then null it. -/
def clearScheduledHeartBeat (st : CSState) : CSState :=
  match st.scheduledHeartBeatRunning with
  | some h =>
      { st with activeTimers := st.activeTimers.filter (fun t => t.id != h),
                scheduledHeartBeatRunning := none }
  | none => { st with scheduledHeartBeatRunning := none }

/-- Models `stop()`: no-op when no heartbeat handle is recorded; otherwise clear
the timer and reset `checkSessionReceived`. -/
def stop (st : CSState) : CSState :=
  if st.scheduledHeartBeatRunning.isNone then st
  else { clearScheduledHeartBeat st with checkSessionReceived := false }

/-- Models `serverStateChanged(configId)`. -/
def serverStateChanged (env : Env) (configId : String) (st : CSState) : Bool :=
  (env.config configId).startCheckSession && st.checkSessionReceived

/-- Models `isCheckSessionConfigured(configId)`. -/
def isCheckSessionConfigured (env : Env) (configId : String) : Bool :=
  (env.config configId).startCheckSession

/-- The origin test of `messageHandler`:
`!!authWellKnownEndPoints?.checkSessionIframe?.startsWith(e.origin)`. -/
def originMatches (env : Env) (configId e : JsVal) : Bool :=
  match (env.readWellKnown configId).bind WellKnown.checkSessionIframe with
  | some url => strStartsWith url e.originStr
  | none => false

/-- The source-window test of `messageHandler`:
`e.source === existingIFrame.contentWindow`. -/
def sourceMatches (e : JsVal) (st : CSState) : Bool :=
  match getExistingIframe st with
  | some f => e.sourceRef == some f.id
  | none => false

/-- Models `messageHandler(e, configId)`: unconditional counter reset, then
origin/source validation, then payload classification. -/
def messageHandler (env : Env) (e configId : JsVal) (st : CSState) : CSState :=
  if (getExistingIframe st).isSome && originMatches env configId e && sourceMatches e st then
    if e.dataStr == some "error" then
      logWarning "error from check session messageHandler"
        { st with outstandingMessages := 0 }
    else if e.dataStr == some "changed" then
      nextChanged true
        (fireEvent (e.dataStr.getD "undefined")
          { logDebug "changed from check session messageHandler"
              { st with outstandingMessages := 0 } with
            checkSessionReceived := true })
    else
      logDebug "other data from checksession messageHandler"
        (fireEvent (e.dataStr.getD "undefined") { st with outstandingMessages := 0 })
  else { st with outstandingMessages := 0 }

/-- Delivery of a window `message` event: each registered listener is the
bound `messageHandler`, whose first parameter already holds the bound
config-id string, so the event object arrives in the `configId` slot. -/
def deliverWindowMessage (env : Env) (ev : JsVal) (st : CSState) : CSState :=
  st.listeners.foldl (fun s bound => messageHandler env (.str bound) ev s) st

/-- The iframe fires `onload`: the registered observer records the refresh
time and emits, running the pending tick callback (once, via `take(1)`). -/
def fireOnload (env : Env) (now : Nat) (st : CSState) : CSState :=
  match st.pendingOnload with
  | none => st
  | some t =>
      tickBody env t.clientId t.configId
        { st with lastIFrameRefresh := now, pendingOnload := none }

/-- A scheduled timeout elapses: if its handle is still live, the stored
`pollServerSessionRecur` closure runs. -/
def fireTimer (env : Env) (tid : Nat) (now : Nat) (st : CSState) : CSState :=
  match st.activeTimers.find? (fun t => t.id == tid) with
  | none => st
  | some t =>
      pollServerSessionRecur env t.clientId t.configId now
        { st with activeTimers := st.activeTimers.filter (fun x => x.id != tid) }

/-- Runs `n` consecutive heartbeat ticks (each the invocation of
`pollServerSessionRecur` by the previous tick's timer). -/
def runTicks (env : Env) (c cfg : String) (now : Nat) : Nat → CSState → CSState
  | 0, st => st
  | n + 1, st => pollServerSessionRecur env c cfg now (runTicks env c cfg now n st)

/-! ### Concrete environments and states used by counterexamples and witnesses -/

/-- Environment with check-session configured but no persisted
`session_state` under any config id. -/
def envMissingState : Env :=
  { config := fun _ => { startCheckSession := true, clientId := "abc" },
    sessionState := fun _ => none,
    wellKnown := fun _ => some { checkSessionIframe := some "https://idp.example/check" } }

/-- Environment with no persisted well-known endpoints at all. -/
def envNoWellKnown : Env :=
  { config := fun _ => { startCheckSession := true, clientId := "abc" },
    sessionState := fun _ => some "s1",
    wellKnown := fun _ => none }

/-- The spec's scenario: tenant `t1`, `startCheckSession`,
endpoint `https://idp.example/check`, client id `abc`, and a persisted
session state `s1`, all stored under config id `t1`. -/
def envScenario : Env :=
  { config := fun c => if c = "t1" then { startCheckSession := true, clientId := "abc" }
              else { startCheckSession := false, clientId := "" },
    sessionState := fun c => if c = "t1" then some "s1" else none,
    wellKnown := fun c =>
      if c = "t1" then some { checkSessionIframe := some "https://idp.example/check" } else none }

/-- A state whose check-session iframe already exists. -/
def stWithIframe : CSState := { iframe := some { id := 0 } }

/-- The service's initial state. -/
def stInit : CSState := {}

/-- Two tenants `a` and `b`, both with session checking enabled; only
tenant `a` has persisted well-known endpoints. -/
def envTwoTenants : Env :=
  { config := fun c =>
      if c = "a" then { startCheckSession := true, clientId := "ca" }
      else if c = "b" then { startCheckSession := true, clientId := "cb" }
      else { startCheckSession := false, clientId := "" },
    sessionState := fun _ => some "s1",
    wellKnown := fun c =>
      if c = "a" then some { checkSessionIframe := some "https://idp.example/check" } else none }

/-- Concrete environment for the C10 witness: a tenant whose client id
also has persisted endpoints, so the swapped call still finds them. -/
def envLoop : Env :=
  { config := fun _ => { startCheckSession := true, clientId := "abc" },
    sessionState := fun _ => some "s1",
    wellKnown := fun _ => some { checkSessionIframe := some "https://idp.example/check" } }

/-- Environment with everything in place for the probe-sending tick. -/
def envHappy : Env :=
  { config := fun _ => { startCheckSession := true, clientId := "abc" },
    sessionState := fun _ => some "s1",
    wellKnown := fun _ => some { checkSessionIframe := some "https://idp.example/check" } }

/-! ## Helper lemmas -/

/-! ### Field-preservation lemmas for the tick pipeline -/

lemma tickProbe_nextTimerId (env : Env) (c cfg : String) (st : CSState) :
    (tickProbe env c cfg st).nextTimerId = st.nextTimerId := by
  unfold tickProbe
  repeat' split
  all_goals rfl

lemma tickProbe_activeTimers (env : Env) (c cfg : String) (st : CSState) :
    (tickProbe env c cfg st).activeTimers = st.activeTimers := by
  unfold tickProbe
  repeat' split
  all_goals rfl

lemma tickProbe_checkSessionReceived (env : Env) (c cfg : String) (st : CSState) :
    (tickProbe env c cfg st).checkSessionReceived = st.checkSessionReceived := by
  unfold tickProbe
  repeat' split
  all_goals rfl

lemma tickProbe_iframe (env : Env) (c cfg : String) (st : CSState) :
    (tickProbe env c cfg st).iframe = st.iframe := by
  unfold tickProbe
  repeat' split
  all_goals rfl

lemma tickProbe_lastIFrameRefresh (env : Env) (c cfg : String) (st : CSState) :
    (tickProbe env c cfg st).lastIFrameRefresh = st.lastIFrameRefresh := by
  unfold tickProbe
  repeat' split
  all_goals rfl

lemma tickProbe_pendingOnload (env : Env) (c cfg : String) (st : CSState) :
    (tickProbe env c cfg st).pendingOnload = st.pendingOnload := by
  unfold tickProbe
  repeat' split
  all_goals rfl

lemma tickProbe_current_true (env : Env) (c cfg : String) (st : CSState)
    (h : st.checkSessionChangedCurrent = true) :
    (tickProbe env c cfg st).checkSessionChangedCurrent = true := by
  unfold tickProbe
  repeat' split
  all_goals simp [tickSend, tickGap, nextChanged, logDebug, logWarning, h]

lemma tickEscalate_nextTimerId (st : CSState) :
    (tickEscalate st).nextTimerId = st.nextTimerId := by
  unfold tickEscalate
  split <;> rfl

lemma tickEscalate_activeTimers (st : CSState) :
    (tickEscalate st).activeTimers = st.activeTimers := by
  unfold tickEscalate
  split <;> rfl

lemma tickEscalate_checkSessionReceived (st : CSState) :
    (tickEscalate st).checkSessionReceived = st.checkSessionReceived := by
  unfold tickEscalate
  split <;> rfl

lemma tickEscalate_iframe (st : CSState) :
    (tickEscalate st).iframe = st.iframe := by
  unfold tickEscalate
  split <;> rfl

lemma tickEscalate_lastIFrameRefresh (st : CSState) :
    (tickEscalate st).lastIFrameRefresh = st.lastIFrameRefresh := by
  unfold tickEscalate
  split <;> rfl

lemma tickEscalate_outstandingMessages (st : CSState) :
    (tickEscalate st).outstandingMessages = st.outstandingMessages := by
  unfold tickEscalate
  split <;> rfl

lemma tickEscalate_pendingOnload (st : CSState) :
    (tickEscalate st).pendingOnload = st.pendingOnload := by
  unfold tickEscalate
  split <;> rfl

lemma tickEscalate_checkSessionChangedCurrent (st : CSState) :
    (tickEscalate st).checkSessionChangedCurrent = st.checkSessionChangedCurrent := by
  unfold tickEscalate
  split <;> rfl

lemma tickEscalate_changedEmissions (st : CSState) :
    (tickEscalate st).changedEmissions = st.changedEmissions := by
  unfold tickEscalate
  split <;> rfl

lemma tickEscalate_postedMessages (st : CSState) :
    (tickEscalate st).postedMessages = st.postedMessages := by
  unfold tickEscalate
  split <;> rfl

lemma tickEscalate_errorLogs (st : CSState) :
    (tickEscalate st).errorLogs = st.errorLogs ++
      (if st.outstandingMessages > 3 then
        ["OidcSecurityCheckSession not receiving check session response messages. Server unreachable?"]
       else []) := by
  unfold tickEscalate
  split <;> simp [logError]

/-! ### Derived facts about a full tick callback body -/

lemma tickBody_scheduled (env : Env) (c cfg : String) (st : CSState) :
    (tickBody env c cfg st).scheduledHeartBeatRunning = some st.nextTimerId := by
  unfold tickBody scheduleHeartBeat
  rw [show (tickEscalate (tickProbe env c cfg st)).nextTimerId = st.nextTimerId from
    (tickEscalate_nextTimerId _).trans (tickProbe_nextTimerId env c cfg st)]

lemma tickBody_timers (env : Env) (c cfg : String) (st : CSState) :
    (tickBody env c cfg st).activeTimers = st.activeTimers ++
      [{ id := st.nextTimerId, clientId := c, configId := cfg,
         delay := heartBeatInterval }] := by
  unfold tickBody scheduleHeartBeat
  rw [show (tickEscalate (tickProbe env c cfg st)).nextTimerId = st.nextTimerId from
    (tickEscalate_nextTimerId _).trans (tickProbe_nextTimerId env c cfg st)]
  rw [show (tickEscalate (tickProbe env c cfg st)).activeTimers = st.activeTimers from
    (tickEscalate_activeTimers _).trans (tickProbe_activeTimers env c cfg st)]

lemma tickBody_checkSessionReceived (env : Env) (c cfg : String) (st : CSState) :
    (tickBody env c cfg st).checkSessionReceived = st.checkSessionReceived := by
  unfold tickBody scheduleHeartBeat
  exact (tickEscalate_checkSessionReceived _).trans (tickProbe_checkSessionReceived env c cfg st)

lemma tickBody_current_true (env : Env) (c cfg : String) (st : CSState)
    (h : st.checkSessionChangedCurrent = true) :
    (tickBody env c cfg st).checkSessionChangedCurrent = true := by
  unfold tickBody scheduleHeartBeat
  exact (tickEscalate_checkSessionChangedCurrent _).trans (tickProbe_current_true env c cfg st h)

/-! ### Case characterizations of init and the recurring tick -/

lemma init_cooldown (env : Env) (cfg : String) (now : Nat) (st : CSState)
    (h : st.lastIFrameRefresh + iframeRefreshInterval > now) :
    init env cfg now st = (st, .emitNow) := by
  unfold init
  rw [if_pos h]

lemma init_noWellKnown (env : Env) (cfg : String) (now : Nat) (st : CSState)
    (h : ¬ st.lastIFrameRefresh + iframeRefreshInterval > now)
    (hwk : env.wellKnown cfg = none) :
    init env cfg now st =
      (logWarning "init check session: authWellKnownEndpoints is undefined. Returning." st,
       .empty) := by
  unfold init
  rw [if_neg h, hwk]

lemma init_withUrl (env : Env) (cfg : String) (now : Nat) (st : CSState)
    (wk : WellKnown) (url : String)
    (h : ¬ st.lastIFrameRefresh + iframeRefreshInterval > now)
    (hwk : env.wellKnown cfg = some wk)
    (hurl : wk.checkSessionIframe = some url) :
    init env cfg now st =
      ({ (getOrCreateIframe cfg st).1 with iframeUrl := some url }, .waitOnload) := by
  unfold init
  rw [if_neg h]
  simp only [hwk, hurl]

lemma recur_cooldown (env : Env) (c cfg : String) (now : Nat) (st : CSState)
    (h : st.lastIFrameRefresh + iframeRefreshInterval > now) :
    pollServerSessionRecur env c cfg now st = tickBody env c cfg st := by
  unfold pollServerSessionRecur
  rw [init_cooldown env cfg now st h]

lemma recur_noWellKnown (env : Env) (c cfg : String) (now : Nat) (st : CSState)
    (h : ¬ st.lastIFrameRefresh + iframeRefreshInterval > now)
    (hwk : env.wellKnown cfg = none) :
    pollServerSessionRecur env c cfg now st =
      logWarning "init check session: authWellKnownEndpoints is undefined. Returning." st := by
  unfold pollServerSessionRecur
  rw [init_noWellKnown env cfg now st h hwk]

lemma recur_withUrl (env : Env) (c cfg : String) (now : Nat) (st : CSState)
    (wk : WellKnown) (url : String)
    (h : ¬ st.lastIFrameRefresh + iframeRefreshInterval > now)
    (hwk : env.wellKnown cfg = some wk)
    (hurl : wk.checkSessionIframe = some url) :
    pollServerSessionRecur env c cfg now st =
      { { (getOrCreateIframe cfg st).1 with iframeUrl := some url } with
          pendingOnload := some { clientId := c, configId := cfg } } := by
  unfold pollServerSessionRecur
  rw [init_withUrl env cfg now st wk url h hwk hurl]

/-! ### Preservation lemmas through init, the recurring tick, and start -/

lemma init_fst_checkSessionReceived (env : Env) (cfg : String) (now : Nat) (st : CSState) :
    ((init env cfg now st).1).checkSessionReceived = st.checkSessionReceived := by
  unfold init getOrCreateIframe bindMessageEventToIframe logWarning
  repeat' split
  all_goals rfl

lemma init_fst_checkSessionChangedCurrent (env : Env) (cfg : String) (now : Nat) (st : CSState) :
    ((init env cfg now st).1).checkSessionChangedCurrent = st.checkSessionChangedCurrent := by
  unfold init getOrCreateIframe bindMessageEventToIframe logWarning
  repeat' split
  all_goals rfl

lemma recur_checkSessionReceived (env : Env) (c cfg : String) (now : Nat) (st : CSState) :
    (pollServerSessionRecur env c cfg now st).checkSessionReceived = st.checkSessionReceived := by
  have h1 := init_fst_checkSessionReceived env cfg now st
  unfold pollServerSessionRecur
  rcases hi : init env cfg now st with ⟨st1, r⟩
  rw [hi] at h1
  cases r
  · exact (tickBody_checkSessionReceived env c cfg st1).trans h1
  · exact h1
  · exact h1

lemma recur_current_true (env : Env) (c cfg : String) (now : Nat) (st : CSState)
    (h : st.checkSessionChangedCurrent = true) :
    (pollServerSessionRecur env c cfg now st).checkSessionChangedCurrent = true := by
  have h1 := init_fst_checkSessionChangedCurrent env cfg now st
  unfold pollServerSessionRecur
  rcases hi : init env cfg now st with ⟨st1, r⟩
  rw [hi] at h1
  cases r
  · exact tickBody_current_true env c cfg st1 (h1.trans h)
  · exact h1.trans h
  · exact h1.trans h

lemma start_checkSessionReceived (env : Env) (cfg : String) (now : Nat) (st : CSState) :
    (start env cfg now st).checkSessionReceived = st.checkSessionReceived := by
  unfold start pollServerSession
  split
  · rfl
  · exact recur_checkSessionReceived env cfg (env.config cfg).clientId now
      { st with outstandingMessages := 0 }

lemma start_current_true (env : Env) (cfg : String) (now : Nat) (st : CSState)
    (h : st.checkSessionChangedCurrent = true) :
    (start env cfg now st).checkSessionChangedCurrent = true := by
  unfold start pollServerSession
  split
  · exact h
  · exact recur_current_true env cfg (env.config cfg).clientId now
      { st with outstandingMessages := 0 } h

lemma stop_checkSessionReceived (st : CSState)
    (h : st.scheduledHeartBeatRunning.isSome = true) :
    (stop st).checkSessionReceived = false := by
  rcases ho : st.scheduledHeartBeatRunning with _ | v
  · rw [ho] at h
    simp at h
  · unfold stop clearScheduledHeartBeat
    rw [ho]
    simp

lemma stop_noop (st : CSState) (h : st.scheduledHeartBeatRunning = none) :
    stop st = st := by
  unfold stop
  rw [h]
  simp

/-- Full characterization of `messageHandler` on a validly-sourced
`changed` payload. -/
lemma messageHandler_changed_eq (env : Env) (e cfg : JsVal) (st : CSState) (f : Iframe)
    (hif : st.iframe = some f)
    (hor : originMatches env cfg e = true)
    (hsrc : sourceMatches e st = true)
    (hdata : e.dataStr = some "changed") :
    messageHandler env e cfg st =
      nextChanged true (fireEvent "changed"
        { logDebug "changed from check session messageHandler"
            { st with outstandingMessages := 0 } with
          checkSessionReceived := true }) := by
  unfold messageHandler getExistingIframe
  rw [hif, hor, hsrc]
  simp [hdata]

/-- A tick in the probe-sending configuration reduces to the send
pipeline. -/
lemma recur_success_eq (env : Env) (c cfg : String) (now : Nat) (st : CSState) (f : Iframe)
    (hif : st.iframe = some f)
    (hc : strIsEmpty c = false)
    (hcool : st.lastIFrameRefresh + iframeRefreshInterval > now)
    (hs : (strTruthy (env.sessionState cfg) &&
           strTruthy ((env.wellKnown cfg).bind WellKnown.checkSessionIframe)) = true) :
    pollServerSessionRecur env c cfg now st =
      scheduleHeartBeat c cfg (tickEscalate
        (tickSend env c cfg (logDebug "clientId and existingIframe" st))) := by
  rw [recur_cooldown env c cfg now st hcool]
  unfold tickBody
  rw [show tickProbe env c cfg st =
      tickSend env c cfg (logDebug "clientId and existingIframe" st) from by
    unfold tickProbe getExistingIframe
    rw [hif]
    simp [hc, hs]]

/-! ## The claims -/

/-- Claim C1, original statement refuted: with a usable channel, a
non-empty client id and no persisted session state, the tick publishes
`true` on the change stream instead of leaving it unchanged. -/
theorem missing_state_tick_counterexample :
    stWithIframe.checkSessionChangedCurrent = false ∧
    (pollServerSessionRecur envMissingState "abc" "t1" 1000 stWithIframe).checkSessionChangedCurrent = true ∧
    (pollServerSessionRecur envMissingState "abc" "t1" 1000 stWithIframe).changedEmissions = [true] := by
  decide

/-- Claim C1 (corrected): in the heartbeat tick, if a usable channel and a
non-empty client id exist but the persisted session-state token or the
check-session iframe URL is missing, the monitor logs the condition AND
publishes `changed = true` on the change stream; no probe is posted and
the loop continues (the next tick is scheduled). -/
theorem missing_state_tick_publishes_changed
    (env : Env) (c cfg : String) (now : Nat) (st : CSState) (f : Iframe)
    (hif : st.iframe = some f)
    (hc : strIsEmpty c = false)
    (hcool : st.lastIFrameRefresh + iframeRefreshInterval > now)
    (hmiss : (strTruthy (env.sessionState cfg) &&
              strTruthy ((env.wellKnown cfg).bind WellKnown.checkSessionIframe)) = false) :
    (pollServerSessionRecur env c cfg now st).checkSessionChangedCurrent = true ∧
    (pollServerSessionRecur env c cfg now st).changedEmissions = st.changedEmissions ++ [true] ∧
    (pollServerSessionRecur env c cfg now st).postedMessages = st.postedMessages ∧
    (pollServerSessionRecur env c cfg now st).scheduledHeartBeatRunning = some st.nextTimerId := by
  have htp : tickProbe env c cfg st = tickGap (logDebug "clientId and existingIframe" st) := by
    unfold tickProbe getExistingIframe
    rw [hif]
    simp [hc, hmiss]
  have ht : tickBody env c cfg st =
      scheduleHeartBeat c cfg (tickEscalate (tickGap (logDebug "clientId and existingIframe" st))) := by
    unfold tickBody
    rw [htp]
  rw [recur_cooldown env c cfg now st hcool]
  refine ⟨?_, ?_, ?_, tickBody_scheduled env c cfg st⟩
  · rw [ht]
    show (tickEscalate (tickGap (logDebug "clientId and existingIframe" st))).checkSessionChangedCurrent = true
    rw [tickEscalate_checkSessionChangedCurrent]
    rfl
  · rw [ht]
    show (tickEscalate (tickGap (logDebug "clientId and existingIframe" st))).changedEmissions =
      st.changedEmissions ++ [true]
    rw [tickEscalate_changedEmissions]
    rfl
  · rw [ht]
    show (tickEscalate (tickGap (logDebug "clientId and existingIframe" st))).postedMessages =
      st.postedMessages
    rw [tickEscalate_postedMessages]
    rfl

/-- Witness for `missing_state_tick_publishes_changed` at a concrete
environment and state. -/
theorem missing_state_tick_publishes_changed_witness :
    (pollServerSessionRecur envMissingState "abc" "t1" 1000 stWithIframe).checkSessionChangedCurrent = true ∧
    (pollServerSessionRecur envMissingState "abc" "t1" 1000 stWithIframe).changedEmissions =
      stWithIframe.changedEmissions ++ [true] ∧
    (pollServerSessionRecur envMissingState "abc" "t1" 1000 stWithIframe).postedMessages =
      stWithIframe.postedMessages ∧
    (pollServerSessionRecur envMissingState "abc" "t1" 1000 stWithIframe).scheduledHeartBeatRunning =
      some stWithIframe.nextTimerId :=
  missing_state_tick_publishes_changed envMissingState "abc" "t1" 1000 stWithIframe
    { id := 0 } rfl rfl (by decide) rfl

/-- Claim C2 (code bug): in the spec's scenario, `start("t1")` passes its
arguments to `pollServerSession` in the order `(configId, clientId)`
against the declared parameter order `(clientId, configId)`, so the first
tick reads storage under the client id `abc`, finds no well-known
endpoints, posts nothing and never binds the message listener; a
subsequent valid `changed` message therefore leaves
`hasSessionChanged("t1")` false.  Had the tick run with the parameters in
their declared roles, it would have posted the probe `abc s1` to origin
`https://idp.example` as the spec describes. -/
theorem scenario_swapped_args_no_probe :
    (start envScenario "t1" 100000 stInit).postedMessages = [] ∧
    (start envScenario "t1" 100000 stInit).listeners = [] ∧
    (start envScenario "t1" 100000 stInit).warnLogs =
      ["init check session: authWellKnownEndpoints is undefined. Returning."] ∧
    serverStateChanged envScenario "t1"
      (deliverWindowMessage envScenario (.msg "https://idp.example" (some 0) "changed")
        (start envScenario "t1" 100000 stInit)) = false ∧
    (fireOnload envScenario 100100
        (pollServerSession envScenario "abc" "t1" 100000 stInit)).postedMessages =
      [("abc s1", "https://idp.example")] := by
  decide

/-- Claim C3, original statement refuted: a message from a wrong origin
still mutates monitor state — it resets `outstandingMessages` from 2
to 0. -/
theorem wrong_origin_reset_counterexample :
    ({ stWithIframe with outstandingMessages := 2 } : CSState).outstandingMessages = 2 ∧
    (messageHandler envMissingState (.msg "https://evil.example" (some 0) "changed") (.str "t1")
      { stWithIframe with outstandingMessages := 2 }).outstandingMessages = 0 := by
  decide

/-- Claim C3 (corrected): for every inbound message whose origin does not
prefix-match the configured check-session endpoint URL, the handler
unconditionally resets `outstandingMessages` to 0 and changes nothing
else: no flag, no event, no emission, no log. -/
theorem wrong_origin_only_resets_outstanding
    (env : Env) (e configId : JsVal) (st : CSState)
    (h : originMatches env configId e = false) :
    messageHandler env e configId st = { st with outstandingMessages := 0 } := by
  unfold messageHandler
  rw [h]
  simp

/-- Witness for `wrong_origin_only_resets_outstanding`. -/
theorem wrong_origin_only_resets_outstanding_witness :
    messageHandler envMissingState (.msg "https://evil.example" (some 0) "changed") (.str "t1")
      { stWithIframe with outstandingMessages := 2 } =
    { ({ stWithIframe with outstandingMessages := 2 } : CSState) with outstandingMessages := 0 } :=
  wrong_origin_only_resets_outstanding envMissingState
    (.msg "https://evil.example" (some 0) "changed") (.str "t1")
    { stWithIframe with outstandingMessages := 2 } (by decide)

/-- Claim C4, original statement refuted: with the persisted well-known
endpoints absent (and the refresh cool-down expired), a tick leaves no
scheduled timer, no pending onload callback and no heartbeat handle —
nothing remains that could fire a next tick; only the warning is
logged. -/
theorem absent_wellknown_counterexample :
    (pollServerSessionRecur envNoWellKnown "abc" "t1" 100000 stInit).scheduledHeartBeatRunning = none ∧
    (pollServerSessionRecur envNoWellKnown "abc" "t1" 100000 stInit).activeTimers = [] ∧
    (pollServerSessionRecur envNoWellKnown "abc" "t1" 100000 stInit).pendingOnload = none ∧
    (pollServerSessionRecur envNoWellKnown "abc" "t1" 100000 stInit).warnLogs =
      ["init check session: authWellKnownEndpoints is undefined. Returning."] ∧
    (pollServerSessionRecur envNoWellKnown "abc" "t1" 100000 stInit).postedMessages = [] := by
  decide

/-- Claim C4 (corrected): every tick whose subscribe callback runs
reschedules the next tick after the fixed `heartBeatInterval`; but when
the persisted well-known endpoints are absent (outside the refresh
cool-down window) the `init` observable completes without emitting, the
callback never runs, and the tick's entire effect is the warning log —
no probe and no rescheduling, so the heartbeat loop halts. -/
theorem absent_wellknown_halts_loop
    (env : Env) (c cfg : String) (now : Nat) (st : CSState)
    (hcool : ¬ st.lastIFrameRefresh + iframeRefreshInterval > now)
    (hwk : env.wellKnown cfg = none) :
    pollServerSessionRecur env c cfg now st =
      logWarning "init check session: authWellKnownEndpoints is undefined. Returning." st ∧
    (∀ (c2 cfg2 : String) (st2 : CSState),
      (tickBody env c2 cfg2 st2).scheduledHeartBeatRunning = some st2.nextTimerId ∧
      (tickBody env c2 cfg2 st2).activeTimers = st2.activeTimers ++
        [{ id := st2.nextTimerId, clientId := c2, configId := cfg2,
           delay := heartBeatInterval }]) :=
  ⟨recur_noWellKnown env c cfg now st hcool hwk,
   fun c2 cfg2 st2 => ⟨tickBody_scheduled env c2 cfg2 st2, tickBody_timers env c2 cfg2 st2⟩⟩

/-- Witness for `absent_wellknown_halts_loop`. -/
theorem absent_wellknown_halts_loop_witness :
    pollServerSessionRecur envNoWellKnown "abc" "t1" 100000 stInit =
      logWarning "init check session: authWellKnownEndpoints is undefined. Returning." stInit ∧
    ((tickBody envNoWellKnown "abc" "t1" stInit).scheduledHeartBeatRunning = some stInit.nextTimerId ∧
      (tickBody envNoWellKnown "abc" "t1" stInit).activeTimers = stInit.activeTimers ++
        [{ id := stInit.nextTimerId, clientId := "abc", configId := "t1",
           delay := heartBeatInterval }]) :=
  ⟨(absent_wellknown_halts_loop envNoWellKnown "abc" "t1" 100000 stInit (by decide) rfl).1,
   (absent_wellknown_halts_loop envNoWellKnown "abc" "t1" 100000 stInit (by decide) rfl).2
     "abc" "t1" stInit⟩

/-- Claim C5, original statement refuted: in a stopped state (no heartbeat
handle), processing a validly-sourced `changed` payload still sets
`checkSessionReceived`, fires the domain event and publishes `true` —
the handler performs no running-state re-validation. -/
theorem stale_changed_after_stop_counterexample :
    stWithIframe.scheduledHeartBeatRunning = none ∧
    (messageHandler envMissingState (.msg "https://idp.example" (some 0) "changed") (.str "t1")
      stWithIframe).checkSessionReceived = true ∧
    (messageHandler envMissingState (.msg "https://idp.example" (some 0) "changed") (.str "t1")
      stWithIframe).firedEvents = ["changed"] ∧
    (messageHandler envMissingState (.msg "https://idp.example" (some 0) "changed") (.str "t1")
      stWithIframe).checkSessionChangedCurrent = true := by
  decide

/-- Claim C5 (corrected): `messageHandler` never consults the running
state: even when no heartbeat is scheduled (after `stop()`), a
validly-sourced `changed` payload sets `checkSessionReceived`, fires the
`CheckSessionReceived` event and publishes `true` on the change stream,
exactly as while running. -/
theorem handler_ignores_running_state
    (env : Env) (e cfg : JsVal) (st : CSState) (f : Iframe)
    (_hstop : st.scheduledHeartBeatRunning = none)
    (hif : st.iframe = some f)
    (hor : originMatches env cfg e = true)
    (hsrc : sourceMatches e st = true)
    (hdata : e.dataStr = some "changed") :
    (messageHandler env e cfg st).checkSessionReceived = true ∧
    (messageHandler env e cfg st).firedEvents = st.firedEvents ++ ["changed"] ∧
    (messageHandler env e cfg st).checkSessionChangedCurrent = true ∧
    (messageHandler env e cfg st).changedEmissions = st.changedEmissions ++ [true] := by
  rw [messageHandler_changed_eq env e cfg st f hif hor hsrc hdata]
  refine ⟨rfl, ?_, rfl, rfl⟩
  show (fireEvent "changed" _).firedEvents = st.firedEvents ++ ["changed"]
  rfl

/-- Witness for `handler_ignores_running_state`. -/
theorem handler_ignores_running_state_witness :
    (messageHandler envMissingState (.msg "https://idp.example" (some 0) "changed") (.str "t1")
      stWithIframe).checkSessionReceived = true ∧
    (messageHandler envMissingState (.msg "https://idp.example" (some 0) "changed") (.str "t1")
      stWithIframe).firedEvents = stWithIframe.firedEvents ++ ["changed"] ∧
    (messageHandler envMissingState (.msg "https://idp.example" (some 0) "changed") (.str "t1")
      stWithIframe).checkSessionChangedCurrent = true ∧
    (messageHandler envMissingState (.msg "https://idp.example" (some 0) "changed") (.str "t1")
      stWithIframe).changedEmissions = stWithIframe.changedEmissions ++ [true] :=
  handler_ignores_running_state envMissingState (.msg "https://idp.example" (some 0) "changed")
    (.str "t1") stWithIframe { id := 0 } rfl rfl (by decide) (by decide) rfl

/-- Claim C6, original statement refuted: a fresh `start()` (not running)
neither resets `checkSessionReceived` to false nor resets the broadcast
change value to false. -/
theorem fresh_start_no_reset_counterexample :
    ({ stInit with checkSessionReceived := true, checkSessionChangedCurrent := true }
      : CSState).scheduledHeartBeatRunning = none ∧
    (start envNoWellKnown "t1" 100000
      { stInit with checkSessionReceived := true,
                    checkSessionChangedCurrent := true }).checkSessionReceived = true ∧
    (start envNoWellKnown "t1" 100000
      { stInit with checkSessionReceived := true,
                    checkSessionChangedCurrent := true }).checkSessionChangedCurrent = true := by
  decide

/-- Claim C6 (corrected): `start()` never changes `checkSessionReceived`
(it is `stop()` that resets it) and never resets the broadcast change
value to false (once true it stays true across `start()`); a fresh
`start()` does begin the heartbeat loop from `outstandingMessages = 0`,
and `stop()` followed by `start()` leaves `hasSessionChanged` false. -/
theorem start_reset_semantics
    (env : Env) (cfg : String) (now : Nat) (st : CSState) :
    (start env cfg now st).checkSessionReceived = st.checkSessionReceived ∧
    (st.checkSessionChangedCurrent = true →
      (start env cfg now st).checkSessionChangedCurrent = true) ∧
    (st.scheduledHeartBeatRunning = none →
      start env cfg now st =
        pollServerSessionRecur env cfg (env.config cfg).clientId now
          { st with outstandingMessages := 0 }) ∧
    (st.scheduledHeartBeatRunning.isSome = true →
      serverStateChanged env cfg (start env cfg now (stop st)) = false) := by
  refine ⟨start_checkSessionReceived env cfg now st,
          start_current_true env cfg now st, ?_, ?_⟩
  · intro h
    unfold start pollServerSession
    rw [h]
    simp
  · intro h
    unfold serverStateChanged
    rw [start_checkSessionReceived, stop_checkSessionReceived st h]
    simp

/-- Witness for `start_reset_semantics` at a running concrete state. -/
theorem start_reset_semantics_witness :
    (start envNoWellKnown "t1" 100000 { stInit with scheduledHeartBeatRunning := some 5 }).checkSessionReceived =
      ({ stInit with scheduledHeartBeatRunning := some 5 } : CSState).checkSessionReceived ∧
    (({ stInit with scheduledHeartBeatRunning := some 5 } : CSState).checkSessionChangedCurrent = true →
      (start envNoWellKnown "t1" 100000
        { stInit with scheduledHeartBeatRunning := some 5 }).checkSessionChangedCurrent = true) ∧
    (({ stInit with scheduledHeartBeatRunning := some 5 } : CSState).scheduledHeartBeatRunning = none →
      start envNoWellKnown "t1" 100000 { stInit with scheduledHeartBeatRunning := some 5 } =
        pollServerSessionRecur envNoWellKnown "t1"
          (envNoWellKnown.config "t1").clientId 100000
          { ({ stInit with scheduledHeartBeatRunning := some 5 } : CSState) with
              outstandingMessages := 0 }) ∧
    (({ stInit with scheduledHeartBeatRunning := some 5 } : CSState).scheduledHeartBeatRunning.isSome = true →
      serverStateChanged envNoWellKnown "t1"
        (start envNoWellKnown "t1" 100000
          (stop { stInit with scheduledHeartBeatRunning := some 5 })) = false) :=
  start_reset_semantics envNoWellKnown "t1" 100000 { stInit with scheduledHeartBeatRunning := some 5 }

/-- Claim C7, original statement refuted: a `changed` message validated
under tenant `a` flips `hasSessionChanged` for the distinct tenant `b`
as well — monitor state is shared, not per tenant. -/
theorem tenant_isolation_counterexample :
    serverStateChanged envTwoTenants "b" stWithIframe = false ∧
    serverStateChanged envTwoTenants "b"
      (messageHandler envTwoTenants (.msg "https://idp.example" (some 0) "changed") (.str "a")
        stWithIframe) = true := by
  decide

/-- Claim C7 (corrected): monitor state lives in one shared service
instance: a `changed` classification received under tenant `a`'s
configuration makes `serverStateChanged` true for EVERY tenant `b` whose
configuration enables session checking — there is no per-tenant
isolation of `checkSessionReceived`, `outstandingMessages` or the timer
handle. -/
theorem changed_leaks_across_tenants
    (env : Env) (a : JsVal) (b : String) (e : JsVal) (st : CSState) (f : Iframe)
    (hif : st.iframe = some f)
    (hor : originMatches env a e = true)
    (hsrc : sourceMatches e st = true)
    (hdata : e.dataStr = some "changed")
    (hb : (env.config b).startCheckSession = true) :
    serverStateChanged env b (messageHandler env e a st) = true := by
  unfold serverStateChanged
  rw [messageHandler_changed_eq env e a st f hif hor hsrc hdata, hb]
  rfl

/-- Witness for `changed_leaks_across_tenants`. -/
theorem changed_leaks_across_tenants_witness :
    serverStateChanged envTwoTenants "b"
      (messageHandler envTwoTenants (.msg "https://idp.example" (some 0) "changed") (.str "a")
        stWithIframe) = true :=
  changed_leaks_across_tenants envTwoTenants (.str "a") "b"
    (.msg "https://idp.example" (some 0) "changed") stWithIframe { id := 0 }
    rfl (by decide) (by decide) rfl rfl

/-- Claim C8 (confirmed): starting from a reset counter and no error log,
after `n` consecutive unanswered ticks the counter reads `n` and exactly
`n - 3` unreachable-server errors have been logged (truncated
subtraction: none on ticks 1 to 3, exactly one more per tick from the
4th, when the counter first exceeds 3); the condition is non-fatal — a
next heartbeat is scheduled after every tick. -/
theorem unreachable_reported_from_fourth_tick
    (env : Env) (c cfg : String) (now : Nat) (st : CSState) (f : Iframe)
    (hif : st.iframe = some f)
    (hc : strIsEmpty c = false)
    (hcool : st.lastIFrameRefresh + iframeRefreshInterval > now)
    (hs : (strTruthy (env.sessionState cfg) &&
           strTruthy ((env.wellKnown cfg).bind WellKnown.checkSessionIframe)) = true)
    (hout : st.outstandingMessages = 0)
    (herr : st.errorLogs = [])
    (n : Nat) :
    (runTicks env c cfg now n st).outstandingMessages = n ∧
    (runTicks env c cfg now n st).errorLogs.length = n - 3 ∧
    (1 ≤ n → (runTicks env c cfg now n st).scheduledHeartBeatRunning.isSome = true) := by
  have main : ∀ n : Nat,
      (runTicks env c cfg now n st).iframe = some f ∧
      (runTicks env c cfg now n st).lastIFrameRefresh = st.lastIFrameRefresh ∧
      (runTicks env c cfg now n st).outstandingMessages = n ∧
      (runTicks env c cfg now n st).errorLogs.length = n - 3 ∧
      (1 ≤ n → (runTicks env c cfg now n st).scheduledHeartBeatRunning.isSome = true) := by
    intro n
    induction n with
    | zero =>
        refine ⟨hif, rfl, hout, ?_, ?_⟩
        · rw [show runTicks env c cfg now 0 st = st from rfl, herr]
          rfl
        · intro h
          omega
    | succ n ih =>
        obtain ⟨ihif, ihref, ihout, ihlen, _⟩ := ih
        have hcool2 : (runTicks env c cfg now n st).lastIFrameRefresh + iframeRefreshInterval > now := by
          rw [ihref]
          exact hcool
        have hstep : runTicks env c cfg now (n + 1) st =
            scheduleHeartBeat c cfg (tickEscalate
              (tickSend env c cfg
                (logDebug "clientId and existingIframe" (runTicks env c cfg now n st)))) :=
          recur_success_eq env c cfg now (runTicks env c cfg now n st) f ihif hc hcool2 hs
        refine ⟨?_, ?_, ?_, ?_, ?_⟩
        · rw [hstep]
          show (tickEscalate (tickSend env c cfg
            (logDebug "clientId and existingIframe" (runTicks env c cfg now n st)))).iframe = some f
          rw [tickEscalate_iframe]
          exact ihif
        · rw [hstep]
          show (tickEscalate (tickSend env c cfg
            (logDebug "clientId and existingIframe" (runTicks env c cfg now n st)))).lastIFrameRefresh =
            st.lastIFrameRefresh
          rw [tickEscalate_lastIFrameRefresh]
          exact ihref
        · rw [hstep]
          show (tickEscalate (tickSend env c cfg
            (logDebug "clientId and existingIframe" (runTicks env c cfg now n st)))).outstandingMessages =
            n + 1
          rw [tickEscalate_outstandingMessages]
          show (runTicks env c cfg now n st).outstandingMessages + 1 = n + 1
          omega
        · rw [hstep]
          show (tickEscalate (tickSend env c cfg
            (logDebug "clientId and existingIframe" (runTicks env c cfg now n st)))).errorLogs.length =
            (n + 1) - 3
          rw [tickEscalate_errorLogs, List.length_append]
          have hx : (tickSend env c cfg
              (logDebug "clientId and existingIframe" (runTicks env c cfg now n st))).outstandingMessages =
              n + 1 := by
            show (runTicks env c cfg now n st).outstandingMessages + 1 = n + 1
            omega
          have hy : (tickSend env c cfg
              (logDebug "clientId and existingIframe" (runTicks env c cfg now n st))).errorLogs.length =
              n - 3 := ihlen
          rw [hx, hy]
          split
          · simp only [List.length_singleton]
            omega
          · simp only [List.length_nil]
            omega
        · intro _
          rw [hstep]
          rfl
  exact ⟨(main n).2.2.1, (main n).2.2.2.1, (main n).2.2.2.2⟩

/-- Witness for `unreachable_reported_from_fourth_tick`: five unanswered
ticks yield counter 5 and exactly two error reports. -/
theorem unreachable_reported_from_fourth_tick_witness :
    (runTicks envHappy "abc" "t1" 1000 5 stWithIframe).outstandingMessages = 5 ∧
    (runTicks envHappy "abc" "t1" 1000 5 stWithIframe).errorLogs.length = 5 - 3 ∧
    (1 ≤ 5 → (runTicks envHappy "abc" "t1" 1000 5 stWithIframe).scheduledHeartBeatRunning.isSome = true) :=
  unreachable_reported_from_fourth_tick envHappy "abc" "t1" 1000 stWithIframe { id := 0 }
    rfl rfl (by decide) rfl rfl rfl 5

/-- Claim C9 (confirmed): `start` is a no-op — the whole state is
untouched — whenever a heartbeat handle is recorded. -/
theorem start_noop_while_running
    (env : Env) (cfg : String) (now : Nat) (st : CSState)
    (h : st.scheduledHeartBeatRunning.isSome = true) :
    start env cfg now st = st := by
  unfold start
  rw [if_pos h]

/-- Witness for `start_noop_while_running`: a running state with handle 5. -/
theorem start_noop_while_running_witness :
    start envScenario "t1" 0 { stInit with scheduledHeartBeatRunning := some 5 } =
      { stInit with scheduledHeartBeatRunning := some 5 } :=
  start_noop_while_running envScenario "t1" 0
    { stInit with scheduledHeartBeatRunning := some 5 } rfl

/-- Claim C10 (confirmed): after `start()` on a fresh state, while the
first tick waits for the iframe to load no heartbeat handle exists, so
`stop()` is a total no-op; once the onload callback later runs, a next
tick is scheduled — the loop was not stopped. -/
theorem stop_before_first_callback_noop
    (env : Env) (tenant : String) (now now2 : Nat) (st : CSState) (wk : WellKnown) (url : String)
    (hrun : st.scheduledHeartBeatRunning = none)
    (hcool : ¬ st.lastIFrameRefresh + iframeRefreshInterval > now)
    (hwk : env.wellKnown ((env.config tenant).clientId) = some wk)
    (hurl : wk.checkSessionIframe = some url) :
    (start env tenant now st).scheduledHeartBeatRunning = none ∧
    stop (start env tenant now st) = start env tenant now st ∧
    (start env tenant now st).pendingOnload =
      some { clientId := tenant, configId := (env.config tenant).clientId } ∧
    (fireOnload env now2 (stop (start env tenant now st))).scheduledHeartBeatRunning.isSome = true := by
  have hstart : start env tenant now st =
      pollServerSessionRecur env tenant (env.config tenant).clientId now
        { st with outstandingMessages := 0 } := by
    unfold start pollServerSession
    rw [hrun]
    simp
  have hrec := recur_withUrl env tenant ((env.config tenant).clientId) now
    { st with outstandingMessages := 0 } wk url hcool hwk hurl
  have hsched : (start env tenant now st).scheduledHeartBeatRunning = none := by
    rw [hstart, hrec]
    show ((getOrCreateIframe (env.config tenant).clientId
      { st with outstandingMessages := 0 }).1).scheduledHeartBeatRunning = none
    unfold getOrCreateIframe bindMessageEventToIframe
    split
    · exact hrun
    · exact hrun
  have hpend : (start env tenant now st).pendingOnload =
      some { clientId := tenant, configId := (env.config tenant).clientId } := by
    rw [hstart, hrec]
  have hnoop : stop (start env tenant now st) = start env tenant now st :=
    stop_noop _ hsched
  refine ⟨hsched, hnoop, hpend, ?_⟩
  rw [hnoop]
  have hfo : fireOnload env now2 (start env tenant now st) =
      tickBody env tenant ((env.config tenant).clientId)
        { start env tenant now st with lastIFrameRefresh := now2, pendingOnload := none } := by
    unfold fireOnload
    rw [hpend]
  rw [hfo, tickBody_scheduled]
  rfl

/-- Witness for `stop_before_first_callback_noop`. -/
theorem stop_before_first_callback_noop_witness :
    (start envLoop "t1" 100000 stInit).scheduledHeartBeatRunning = none ∧
    stop (start envLoop "t1" 100000 stInit) = start envLoop "t1" 100000 stInit ∧
    (start envLoop "t1" 100000 stInit).pendingOnload =
      some { clientId := "t1", configId := (envLoop.config "t1").clientId } ∧
    (fireOnload envLoop 100100 (stop (start envLoop "t1" 100000 stInit))).scheduledHeartBeatRunning.isSome = true :=
  stop_before_first_callback_noop envLoop "t1" 100000 100100 stInit
    { checkSessionIframe := some "https://idp.example/check" } "https://idp.example/check"
    rfl (by decide) rfl rfl

end CheckSession
